import Mathlib

/-!
# Verification of the `minidl` dynamic-library loading layer

Shallow embedding of `src/lib.rs` (the whole repository is this one file).

Modelling conventions:
* Machine addresses (`*mut c_void` values) are `Nat`; `0` is the null pointer.
* Rust `&str` values are `List Char` (the claims only exercise ASCII content,
  where Rust's byte length and our char length coincide; the only slicing the
  source performs, `&name[..name.len()-1]`, cuts off a one-byte NUL terminator
  and is therefore `List.dropLast`).
* Rust code that can `assert!`-panic is modelled in the `Exec` monad-like
  type: `Exec.panicked msg` for an assertion failure, `Exec.ok v` for a
  normal return.  A panic aborts the operation: no value-level result exists.
* The OS loader is an oracle: for symbol lookup a function
  `lookup : Addr → List Char → Addr` (module handle, C string seen by the OS,
  result address, `0` meaning "not found"); the OS reads the bytes of the
  passed pointer only up to the first NUL, which `cstrView` captures.
* The caller-chosen output type `T` of the generic Rust functions is
  represented by its size in bytes `sizeT`; `size_of::<*mut c_void>()` is the
  parameter `ptrSize`.  A resolved value of a pointer-sized `T` is the raw
  address bit-pattern, so resolved values are simply `Addr`.
* `cfg(unix)` / `cfg(windows)` conditional compilation yields two Lean
  functions (suffix `_unix` / `_windows`) or a shared function when the two
  branches only differ in the lookup oracle.
-/

set_option maxRecDepth 40000

namespace Minidl

/-- Equality of `Except` results is decidable (needed to evaluate concrete
load results in witnesses). -/
instance {ε α : Type} [DecidableEq ε] [DecidableEq α] :
    DecidableEq (Except ε α) := fun x y =>
  match x, y with
  | .error a, .error b =>
    if h : a = b then .isTrue (congrArg Except.error h)
    else .isFalse (fun hc => h (Except.error.inj hc))
  | .ok a, .ok b =>
    if h : a = b then .isTrue (congrArg Except.ok h)
    else .isFalse (fun hc => h (Except.ok.inj hc))
  | .error _, .ok _ => .isFalse (fun hc => Except.noConfusion hc)
  | .ok _, .error _ => .isFalse (fun hc => Except.noConfusion hc)

/-- A machine pointer value; `0` is null. -/
abbrev Addr := Nat

/-- Shorthand: the character list of a string literal. -/
def str (s : String) : List Char := s.data

/-- The NUL character `'\0'`. -/
def nul : Char := '\x00'

/-- Result of running Rust code that may `assert!`-panic. -/
inductive Exec (α : Type) where
  | panicked (msg : String) : Exec α
  | ok (v : α) : Exec α
deriving DecidableEq

/-- `true` iff the execution aborted with an assertion failure. -/
def Exec.isPanic {α : Type} : Exec α → Bool
  | .panicked _ => true
  | .ok _ => false

/-- Model of `std::io::ErrorKind` (only the variants this library produces).
`fromRawOs code` stands for the kind `Error::last_os_error()` derives from an
OS error code that `load` does not specially handle. -/
inductive ErrorKind where
  | notFound : ErrorKind
  | invalidInput : ErrorKind
  | other : ErrorKind
  | fromRawOs (code : Int) : ErrorKind
deriving DecidableEq

/-- Model of `std::io::Error`: a kind plus a message. -/
structure IoError where
  kind : ErrorKind
  msg : List Char
deriving DecidableEq

/-- `pub struct Library(*mut c_void);` — one opaque native handle. -/
structure Library where
  handle : Addr
deriving DecidableEq

/-- The C string a NUL-terminated OS call reads from a char buffer: the
characters strictly before the first NUL. -/
def cstrView (s : List Char) : List Char := s.takeWhile (fun c => c != nul)

/-- `name.ends_with('\0')` from `sym_opt`. -/
def strEndsWithNul (s : List Char) : Bool := s.getLast? == some nul

/-- `name[..n-1].contains('\0')` from `sym_opt`: an embedded NUL before the
final character. -/
def hasInteriorNul (s : List Char) : Bool := s.dropLast.contains nul

/-!
## Rust's `{:?}` (Debug) formatting of `str`

`sym` formats the missing symbol name with `format!("Symbol {:?} …", s)`.
`str`'s `Debug` implementation surrounds the text with double quotes and
escapes each character via `char::escape_debug`.  The model below is faithful
for ASCII content (`'\0' '\t' '\r' '\n' '\\' '"'` escaped by name, other
control characters as `\u{…}` escapes, printable ASCII verbatim); characters
`≥ 0x80` are kept verbatim, which matches Rust for printable non-ASCII — the
theorems below only instantiate ASCII names.
-/

/-- One character of Rust `char::escape_debug` output (string-Debug variant:
double quotes escaped, single quotes not). -/
def escapeDebugChar (c : Char) : List Char :=
  if c = '\x00' then str "\\0"
  else if c = '\x09' then str "\\t"
  else if c = '\x0d' then str "\\r"
  else if c = '\x0a' then str "\\n"
  else if c = '\\' then str "\\\\"
  else if c = '\"' then str "\\\""
  else if c.toNat < 0x20 ∨ c.toNat = 0x7f then
    str "\\u" ++ [Char.ofNat 123] ++ Nat.toDigits 16 c.toNat ++ [Char.ofNat 125]
  else [c]

/-- Rust `format!("{:?}", s)` for `s : &str`. -/
def strDebug (s : List Char) : List Char :=
  ['\"'] ++ s.flatMap escapeDebugChar ++ ['\"']

/-- Characters that `{:?}` renders verbatim: printable ASCII other than the
double quote and the backslash. -/
def plainAsciiChar (c : Char) : Bool :=
  decide (0x20 ≤ c.toNat) && decide (c.toNat ≤ 0x7e) && c != '\"' && c != '\\'

/-!
## Symbol resolution by name

`sym_opt` is generic over the platform's lookup call: `dlsym` on Unix,
`GetProcAddress` on Windows; both branches are otherwise identical, so the
oracle is a parameter `oslookup`.  The three `assert` / `assert_eq` calls
appear in source order: output-type size, trailing NUL, embedded NUL.
-/

/-- `Library::sym_opt::<T>` (src/lib.rs lines 115–132). -/
def sym_opt (ptrSize sizeT : Nat) (oslookup : Addr → List Char → Addr)
    (self : Library) (name : List Char) : Exec (Option Addr) :=
  if sizeT = ptrSize then
    if strEndsWithNul name then
      if hasInteriorNul name then
        .panicked "symbol name must not contain interior NULs"
      else
        let result := oslookup self.handle (cstrView name)
        if result = 0 then .ok none else .ok (some result)
    else .panicked "symbol name must end with a trailing NUL"
  else .panicked "symbol result is not pointer sized!"

/-- `Library::sym::<T>` (src/lib.rs lines 94–99): required form; converts an
empty optional result into an `InvalidInput` error whose message holds the
`{:?}`-formatted name without its trailing NUL (`&name[..name.len()-1]`). -/
def sym (ptrSize sizeT : Nat) (oslookup : Addr → List Char → Addr)
    (self : Library) (name : List Char) : Exec (Except IoError Addr) :=
  match sym_opt ptrSize sizeT oslookup self name with
  | .panicked m => .panicked m
  | .ok (some v) => .ok (.ok v)
  | .ok none => .ok (.error ⟨.invalidInput,
      str "Symbol " ++ strDebug name.dropLast ++ str " missing from library"⟩)

/-- `Library::has_sym` (src/lib.rs lines 199–203): calls
`sym_opt::<*mut c_void>` — the output type is the pointer type itself, so its
size is exactly `ptrSize` — and reports presence. -/
def has_sym (ptrSize : Nat) (oslookup : Addr → List Char → Addr)
    (self : Library) (name : List Char) : Exec Bool :=
  match sym_opt ptrSize ptrSize oslookup self name with
  | .panicked m => .panicked m
  | .ok o => .ok o.isSome

/-!
## Symbol resolution by ordinal

The `cfg` branches differ in substance here: Windows calls
`GetProcAddress(module, ordinal as *const _)`, Unix hardwires
`null_mut::<c_void>()`.  Both share the leading size assertion and the final
null check.  The ordinal is a Rust `u16`; theorems carry `ordinal ≤ 65535`.
-/

/-- `Library::sym_opt_by_ordinal::<T>`, Unix branch (src/lib.rs 168–187):
`func` is hardwired to null. -/
def sym_opt_by_ordinal_unix (ptrSize sizeT : Nat) (self : Library)
    (ordinal : Nat) : Exec (Option Addr) :=
  if sizeT = ptrSize then
    let func : Addr := 0
    if func = 0 then .ok none else .ok (some func)
  else .panicked "symbol result is not pointer sized!"

/-- `Library::sym_opt_by_ordinal::<T>`, Windows branch (src/lib.rs 168–187):
`GetProcAddress` with the ordinal in the low-order word. -/
def sym_opt_by_ordinal_windows (ptrSize sizeT : Nat)
    (lookupOrd : Addr → Nat → Addr) (self : Library) (ordinal : Nat) :
    Exec (Option Addr) :=
  if sizeT = ptrSize then
    let func : Addr := lookupOrd self.handle ordinal
    if func = 0 then .ok none else .ok (some func)
  else .panicked "symbol result is not pointer sized!"

/-- The `InvalidInput` message of `sym_by_ordinal`:
`format!("Symbol @{ordinal} missing from library")`. -/
def ordinalMissingMsg (ordinal : Nat) : List Char :=
  str "Symbol @" ++ Nat.toDigits 10 ordinal ++ str " missing from library"

/-- `Library::sym_by_ordinal::<T>`, Unix branch (src/lib.rs 148–152). -/
def sym_by_ordinal_unix (ptrSize sizeT : Nat) (self : Library)
    (ordinal : Nat) : Exec (Except IoError Addr) :=
  match sym_opt_by_ordinal_unix ptrSize sizeT self ordinal with
  | .panicked m => .panicked m
  | .ok (some v) => .ok (.ok v)
  | .ok none => .ok (.error ⟨.invalidInput, ordinalMissingMsg ordinal⟩)

/-- `Library::sym_by_ordinal::<T>`, Windows branch (src/lib.rs 148–152). -/
def sym_by_ordinal_windows (ptrSize sizeT : Nat)
    (lookupOrd : Addr → Nat → Addr) (self : Library) (ordinal : Nat) :
    Exec (Except IoError Addr) :=
  match sym_opt_by_ordinal_windows ptrSize sizeT lookupOrd self ordinal with
  | .panicked m => .panicked m
  | .ok (some v) => .ok (.ok v)
  | .ok none => .ok (.error ⟨.invalidInput, ordinalMissingMsg ordinal⟩)

/-- A concrete lookup oracle for witnesses: every symbol absent. -/
def lookupNone : Addr → List Char → Addr := fun _ _ => 0

/-- A concrete ordinal oracle for witnesses: every ordinal absent. -/
def lookupOrdNone : Addr → Nat → Addr := fun _ _ => 0

/-!
## Loading

`Library::load` (src/lib.rs 30–74) takes `impl AsRef<Path>` and uses three
views of the path, bundled in `RPath`: the `Display` rendering
(`path.display()`), the Unix byte encoding (`OsStrExt::as_bytes`) and the
Windows wide-character encoding (`OsStrExt::encode_wide`).

The POSIX loader keeps a process-wide last-error slot (`dlerror`): reading it
returns the pending message and clears the slot; a failing `dlopen` stores a
message.  `posix_load` threads this state explicitly and also records the
sequence of OS calls it makes, so temporal claims about call order are
statements about the returned trace.
-/

/-- The three views of the `impl AsRef<Path>` argument of `load`. -/
structure RPath where
  display : List Char
  bytes : List Nat
  wide : List Nat

/-- The C string a NUL-terminated OS call reads from a byte buffer. -/
def cstrBytes (l : List Nat) : List Nat := l.takeWhile (fun b => b != 0)

/-- The POSIX loader's process-wide error slot (the state `dlerror` reads
and clears, and a failing `dlopen` sets). -/
structure LoaderState where
  errSlot : Option (List Char)
deriving DecidableEq

/-- One OS call made by the POSIX `load` path. -/
inductive OSCall where
  | dlerrorCall : OSCall
  | dlopenCall (filename : List Nat) : OSCall
deriving DecidableEq

/-- POSIX loader oracle: for a given filename buffer, the handle `dlopen`
returns (`0` = failure) and the diagnostic message it stores in the error
slot when it fails (per POSIX this text names the failing path). -/
structure PosixOS where
  dlopenRes : List Nat → Addr
  dlopenErr : List Nat → List Char

/-- `Library::load`, Unix branch (src/lib.rs 30–31, 39–48, 69–73).
Returns the result, the final loader state, and the trace of OS calls:
1. builds `filename = path bytes ++ [0]` (no embedded-NUL check);
2. `let _ = dlerror();` — reads and discards the slot, clearing it;
3. `dlopen(filename, RTLD_LAZY)`;
4. non-null handle: `Ok(Library(handle))`; null: reads `dlerror()` again and
   returns an `ErrorKind::Other` error with that text (the source comment:
   "dlerror already contains path info"). -/
def posix_load (os : PosixOS) (st0 : LoaderState) (path : RPath) :
    Except IoError Library × LoaderState × List OSCall :=
  let filename := path.bytes ++ [0]
  -- step 2: `let _ = dlerror()` clears any stale slot contents (st0 is dead)
  let handle := os.dlopenRes filename
  let stAfterOpen : LoaderState :=
    if handle = 0 then ⟨some (os.dlopenErr filename)⟩ else ⟨none⟩
  if handle ≠ 0 then
    (.ok ⟨handle⟩, stAfterOpen, [.dlerrorCall, .dlopenCall filename])
  else
    -- step 4 failure: `dlerror()` returns the message dlopen just stored
    (.error ⟨.other, stAfterOpen.errSlot.getD []⟩, ⟨none⟩,
      [.dlerrorCall, .dlopenCall filename, .dlerrorCall])

/-- `ERROR_BAD_EXE_FORMAT : i32 = 0x00C1` (src/lib.rs 205). -/
def ERROR_BAD_EXE_FORMAT : Int := 0xC1

/-- `ERROR_MOD_NOT_FOUND : i32 = 0x007E` (src/lib.rs 206). -/
def ERROR_MOD_NOT_FOUND : Int := 0x7E

/-- The build target: the `target_arch` string `cfg!` inspects, plus the
target's actual pointer width in bits (ground truth about the architecture,
which the code does not read — it only compares `arch` to `"x86_64"`). -/
structure Platform where
  arch : List Char
  ptrBits : Nat

/-- `if cfg!(target_arch = "x86_64") { "64" } else { "32" }` — the `this`
bit-width string in the bad-exe-format message (src/lib.rs 56). -/
def thisBitsStr (arch : List Char) : List Char :=
  if arch = str "x86_64" then str "64" else str "32"

/-- `if cfg!(target_arch = "x86_64") { "32" } else { "64" }` — the `that`
bit-width string in the bad-exe-format message (src/lib.rs 57). -/
def thatBitsStr (arch : List Char) : List Char :=
  if arch = str "x86_64" then str "32" else str "64"

/-- The architecture-mismatch message of the Windows `load` branch
(src/lib.rs 53–58). -/
def badExeFormatMsg (arch : List Char) (path : RPath) : List Char :=
  str "Unable to load " ++ path.display ++
    str ": ERROR_BAD_EXE_FORMAT (likely tried to load a " ++
    thatBitsStr arch ++ str "-bit DLL into this " ++ thisBitsStr arch ++
    str "-bit process)"

/-- The not-found message of the Windows `load` branch (src/lib.rs 61–64). -/
def modNotFoundMsg (path : RPath) : List Char :=
  str "Unable to load " ++ path.display ++ str ": NotFound"

/-- One OS call made by the Windows `load` path. -/
inductive WinCall where
  | loadLibraryWCall (filename : List Nat) : WinCall
deriving DecidableEq

/-- Windows loader oracle: the handle `LoadLibraryW` returns for a filename
buffer (`0` = failure), and the thread's last OS error code / rendered
message (`Error::last_os_error()`) after a failure. -/
structure WinOS where
  loadLibraryWRes : List Nat → Addr
  lastError : Int
  lastErrorMsg : List Char

/-- `Library::load`, Windows branch (src/lib.rs 30–37, 46–67): builds
`filename = wide chars ++ [0]`, calls `LoadLibraryW`, and on failure matches
`raw_os_error()` against `ERROR_BAD_EXE_FORMAT` (architecture mismatch,
`ErrorKind::Other` with the bitness message) and `ERROR_MOD_NOT_FOUND`
(`ErrorKind::NotFound` naming the path); any other code is surfaced as
`Error::last_os_error()` itself. -/
def windows_load (os : WinOS) (plat : Platform) (path : RPath) :
    Except IoError Library × List WinCall :=
  let filename := path.wide ++ [0]
  let handle := os.loadLibraryWRes filename
  let trace := [WinCall.loadLibraryWCall filename]
  if handle ≠ 0 then (.ok ⟨handle⟩, trace)
  else if os.lastError = ERROR_BAD_EXE_FORMAT then
    (.error ⟨.other, badExeFormatMsg plat.arch path⟩, trace)
  else if os.lastError = ERROR_MOD_NOT_FOUND then
    (.error ⟨.notFound, modNotFoundMsg path⟩, trace)
  else
    (.error ⟨.fromRawOs os.lastError, os.lastErrorMsg⟩, trace)

/-- `Library::from_handle` (src/lib.rs 76–78): wraps any raw handle,
unconditionally `Ok`, no null check. -/
def from_handle (handle : Addr) : Except IoError Library :=
  .ok ⟨handle⟩

/-- A concrete path for witnesses: `"libfoo.so"`. -/
def pathFoo : RPath :=
  ⟨str "libfoo.so", (str "libfoo.so").map Char.toNat,
    (str "libfoo.so").map Char.toNat⟩

/-- A concrete POSIX oracle for witnesses: `dlopen` always fails with a
typical not-found diagnostic. -/
def posixFailOS : PosixOS :=
  ⟨fun _ => 0,
    fun _ => str
      "libfoo.so: cannot open shared object file: No such file or directory"⟩

/-- A concrete POSIX oracle for witnesses: `dlopen` succeeds with handle 5. -/
def posixOkOS : PosixOS := ⟨fun _ => 5, fun _ => []⟩

/-- A concrete Windows oracle: `LoadLibraryW` fails with
`ERROR_BAD_EXE_FORMAT`. -/
def winBadExeOS : WinOS := ⟨fun _ => 0, ERROR_BAD_EXE_FORMAT, []⟩

/-- A concrete Windows oracle: `LoadLibraryW` fails with
`ERROR_MOD_NOT_FOUND`. -/
def winNotFoundOS : WinOS := ⟨fun _ => 0, ERROR_MOD_NOT_FOUND, []⟩

/-- A concrete Windows oracle: `LoadLibraryW` succeeds with handle 5. -/
def winOkOS : WinOS := ⟨fun _ => 5, 0, []⟩

/-! ## Claims C1 and C2 -/

/-- **C1.** On the POSIX backend, for every ordinal value of the `u16` range
(including 0 and 65535), `sym_opt_by_ordinal` returns the empty result and
`sym_by_ordinal` returns the `InvalidInput` failure whose message identifies
the missing symbol by its ordinal (`@<ordinal>` occurs in the message); and
for every output-type size whatsoever, neither operation ever returns a
resolved value. -/
theorem c1_posix_ordinal_always_missing (ptrSize sizeT : Nat) (self : Library)
    (ordinal : Nat) (hord : ordinal ≤ 65535) (hsize : sizeT = ptrSize) :
    sym_opt_by_ordinal_unix ptrSize sizeT self ordinal = .ok none ∧
    sym_by_ordinal_unix ptrSize sizeT self ordinal =
      .ok (.error ⟨.invalidInput, ordinalMissingMsg ordinal⟩) ∧
    ('@' :: Nat.toDigits 10 ordinal) <:+: ordinalMissingMsg ordinal ∧
    (∀ sizeT' v, sym_opt_by_ordinal_unix ptrSize sizeT' self ordinal ≠
        .ok (some v)) ∧
    (∀ sizeT' v, sym_by_ordinal_unix ptrSize sizeT' self ordinal ≠
        .ok (.ok v)) := by
  subst hsize
  refine ⟨by simp [sym_opt_by_ordinal_unix], by
    simp [sym_by_ordinal_unix, sym_opt_by_ordinal_unix], ?_, ?_, ?_⟩
  · exact ⟨str "Symbol ", str " missing from library", rfl⟩
  · intro sizeT' v
    by_cases h : sizeT' = sizeT <;>
      simp [sym_opt_by_ordinal_unix, h]
  · intro sizeT' v
    by_cases h : sizeT' = sizeT <;>
      simp [sym_by_ordinal_unix, sym_opt_by_ordinal_unix, h]

/-- Witness for C1, instantiated at the two extreme ordinals 0 and 65535. -/
theorem c1_posix_ordinal_always_missing_witness :
    (sym_opt_by_ordinal_unix 8 8 ⟨1⟩ 0 = .ok none ∧
      sym_by_ordinal_unix 8 8 ⟨1⟩ 0 =
        .ok (.error ⟨.invalidInput, ordinalMissingMsg 0⟩)) ∧
    (sym_opt_by_ordinal_unix 8 8 ⟨1⟩ 65535 = .ok none ∧
      sym_by_ordinal_unix 8 8 ⟨1⟩ 65535 =
        .ok (.error ⟨.invalidInput, ordinalMissingMsg 65535⟩)) := by
  have h0 := c1_posix_ordinal_always_missing 8 8 ⟨1⟩ 0 (by decide) rfl
  have h1 := c1_posix_ordinal_always_missing 8 8 ⟨1⟩ 65535 (by decide) rfl
  exact ⟨⟨h0.1, h0.2.1⟩, ⟨h1.1, h1.2.1⟩⟩

/-- **C2.** If the name does not end with NUL, or contains an embedded NUL,
or the caller-specified output type is not pointer-sized, then `sym_opt` and
`sym` abort with an assertion failure (no value-level result); `has_sym`
aborts under the two name conditions (its output type is the pointer type
itself, so the size condition cannot arise there); and the size assertion
likewise aborts `sym_opt_by_ordinal` / `sym_by_ordinal` on both backends. -/
theorem c2_precondition_violations_panic (ptrSize sizeT : Nat)
    (oslookup : Addr → List Char → Addr) (lookupOrd : Addr → Nat → Addr)
    (self : Library) (name : List Char) (ordinal : Nat)
    (h : strEndsWithNul name = false ∨ hasInteriorNul name = true ∨
      sizeT ≠ ptrSize) :
    ((sym_opt ptrSize sizeT oslookup self name).isPanic = true ∧
      (sym ptrSize sizeT oslookup self name).isPanic = true) ∧
    (strEndsWithNul name = false ∨ hasInteriorNul name = true →
      (has_sym ptrSize oslookup self name).isPanic = true) ∧
    (sizeT ≠ ptrSize →
      (sym_opt_by_ordinal_unix ptrSize sizeT self ordinal).isPanic = true ∧
      (sym_by_ordinal_unix ptrSize sizeT self ordinal).isPanic = true ∧
      (sym_opt_by_ordinal_windows ptrSize sizeT lookupOrd self
        ordinal).isPanic = true ∧
      (sym_by_ordinal_windows ptrSize sizeT lookupOrd self
        ordinal).isPanic = true) := by
  have hopt : (sym_opt ptrSize sizeT oslookup self name).isPanic = true := by
    rcases h with h | h | h
    · by_cases hs : sizeT = ptrSize <;> simp [sym_opt, hs, h, Exec.isPanic]
    · by_cases hs : sizeT = ptrSize <;>
        cases he : strEndsWithNul name <;>
        simp [sym_opt, hs, he, h, Exec.isPanic]
    · simp [sym_opt, h, Exec.isPanic]
  refine ⟨⟨hopt, ?_⟩, ?_, ?_⟩
  · unfold sym
    cases hso : sym_opt ptrSize sizeT oslookup self name with
    | panicked m => simp [Exec.isPanic]
    | ok o => rw [hso] at hopt; simp [Exec.isPanic] at hopt
  · intro hname
    have hopt2 : (sym_opt ptrSize ptrSize oslookup self name).isPanic
        = true := by
      rcases hname with h | h
      · simp [sym_opt, h, Exec.isPanic]
      · cases he : strEndsWithNul name <;>
          simp [sym_opt, he, h, Exec.isPanic]
    unfold has_sym
    cases hso : sym_opt ptrSize ptrSize oslookup self name with
    | panicked m => simp [Exec.isPanic]
    | ok o => rw [hso] at hopt2; simp [Exec.isPanic] at hopt2
  · intro hs
    refine ⟨by simp [sym_opt_by_ordinal_unix, hs, Exec.isPanic], by
      simp [sym_by_ordinal_unix, sym_opt_by_ordinal_unix, hs, Exec.isPanic],
      by simp [sym_opt_by_ordinal_windows, hs, Exec.isPanic], by
      simp [sym_by_ordinal_windows, sym_opt_by_ordinal_windows, hs,
        Exec.isPanic]⟩

/-- Witness for C2: a name `"a"` with no trailing NUL and a 4-byte output
type on an 8-byte-pointer platform violate the preconditions. -/
theorem c2_precondition_violations_panic_witness :
    (sym_opt 8 4 lookupNone ⟨1⟩ (str "a")).isPanic = true ∧
    (sym 8 4 lookupNone ⟨1⟩ (str "a")).isPanic = true ∧
    (has_sym 8 lookupNone ⟨1⟩ (str "a")).isPanic = true ∧
    (sym_opt_by_ordinal_unix 8 4 ⟨1⟩ 7).isPanic = true ∧
    (sym_by_ordinal_unix 8 4 ⟨1⟩ 7).isPanic = true ∧
    (sym_opt_by_ordinal_windows 8 4 lookupOrdNone ⟨1⟩ 7).isPanic = true ∧
    (sym_by_ordinal_windows 8 4 lookupOrdNone ⟨1⟩ 7).isPanic = true := by
  have h := c2_precondition_violations_panic 8 4 lookupNone lookupOrdNone
    ⟨1⟩ (str "a") 7 (Or.inl (by decide))
  have hord := h.2.2 (by decide)
  exact ⟨h.1.1, h.1.2, h.2.1 (Or.inl (by decide)), hord.1, hord.2.1,
    hord.2.2.1, hord.2.2.2⟩

/-! ## Helper lemmas (shared) -/

/-- Prepending on the left preserves infixes. -/
theorem infixAppendLeft (l₁ : List Char) {l l₂ : List Char}
    (h : l <:+: l₂) : l <:+: l₁ ++ l₂ := by
  obtain ⟨s, t, rfl⟩ := h
  exact ⟨l₁ ++ s, t, by simp⟩

/-- A character `{:?}` renders verbatim escapes to itself. -/
theorem escapeDebugChar_plain (c : Char) (h : plainAsciiChar c = true) :
    escapeDebugChar c = [c] := by
  unfold plainAsciiChar at h
  rw [Bool.and_eq_true, Bool.and_eq_true, Bool.and_eq_true] at h
  obtain ⟨⟨⟨ha, hb⟩, hq⟩, hs⟩ := h
  have h1 : 0x20 ≤ c.toNat := of_decide_eq_true ha
  have h2 : c.toNat ≤ 0x7e := of_decide_eq_true hb
  have hq' : c ≠ '\"' := by simpa using hq
  have hs' : c ≠ '\\' := by simpa using hs
  have hne : ∀ d : Char, d.toNat < 0x20 → c ≠ d := by
    intro d hd e
    subst e
    omega
  unfold escapeDebugChar
  rw [if_neg (hne _ (by decide)), if_neg (hne _ (by decide)),
    if_neg (hne _ (by decide)), if_neg (hne _ (by decide)),
    if_neg hs', if_neg hq', if_neg (by omega)]

/-- On all-plain content, `{:?}` is the content surrounded by quotes. -/
theorem strDebug_plain (s : List Char)
    (h : ∀ c ∈ s, plainAsciiChar c = true) :
    strDebug s = '\"' :: (s ++ ['\"']) := by
  unfold strDebug
  have key : ∀ t : List Char, (∀ c ∈ t, plainAsciiChar c = true) →
      t.flatMap escapeDebugChar = t := by
    intro t
    induction t with
    | nil => intro _; rfl
    | cons a r ih =>
      intro ht
      rw [List.flatMap_cons, escapeDebugChar_plain a (ht a (by simp)),
        ih (fun c hc => ht c (by simp [hc])), List.singleton_append]
  rw [key s h]
  rfl

/-- The C string read from `bytes ++ [0]` is `bytes` truncated at its first
zero byte. -/
theorem cstrBytes_append_nul (l : List Nat) :
    cstrBytes (l ++ [0]) = l.takeWhile (fun b => b != 0) := by
  induction l with
  | nil => rfl
  | cons a t ih =>
    unfold cstrBytes at *
    rw [List.cons_append, List.takeWhile_cons, List.takeWhile_cons]
    cases hb : (a != 0)
    · rfl
    · rw [ih]

/-! ## Claims C3 – C10 -/

/-- **C3, counterexample.** The claim says the failure message of `sym`
contains exactly the requested name with the trailing NUL excluded, for every
name meeting the preconditions.  The name `"\t\0"` (a tab, NUL-terminated)
meets them, but the message renders the name with `{:?}` (Debug), which
escapes the tab to the two characters `\t`: the raw tab character does not
occur in the message. -/
theorem c3_message_escapes_counterexample :
    sym 8 8 lookupNone ⟨1⟩ (str "\t\x00") =
      .ok (.error ⟨.invalidInput, str "Symbol \"\\t\" missing from library"⟩) ∧
    ¬ (str "\t" <:+: str "Symbol \"\\t\" missing from library") := by
  constructor
  · decide
  · decide

/-- **C3, amended.** For every NUL-terminated name satisfying the
preconditions, `sym` returns `sym_opt`'s value when it is non-empty; when it
is empty, `sym` returns an `InvalidInput` failure whose message contains the
`{:?}`-rendered (quoted, escaped) form of the name with its trailing NUL
excluded — and whenever the name needs no escaping (printable ASCII without
`"` or `\`), the message therefore contains the requested name verbatim. -/
theorem c3_sym_required_form (ptrSize sizeT : Nat)
    (oslookup : Addr → List Char → Addr) (self : Library) (name : List Char)
    (he : strEndsWithNul name = true) (hi : hasInteriorNul name = false)
    (hsize : sizeT = ptrSize) :
    (oslookup self.handle (cstrView name) = 0 →
      sym ptrSize sizeT oslookup self name = .ok (.error ⟨.invalidInput,
        str "Symbol " ++ strDebug name.dropLast ++
          str " missing from library"⟩) ∧
      strDebug name.dropLast <:+: (str "Symbol " ++ strDebug name.dropLast ++
        str " missing from library") ∧
      ((∀ c ∈ name.dropLast, plainAsciiChar c = true) →
        name.dropLast <:+: (str "Symbol " ++ strDebug name.dropLast ++
          str " missing from library"))) ∧
    (∀ a, a ≠ 0 → oslookup self.handle (cstrView name) = a →
      sym ptrSize sizeT oslookup self name = .ok (.ok a)) := by
  subst hsize
  constructor
  · intro h0
    refine ⟨?_, ?_, ?_⟩
    · simp [sym, sym_opt, he, hi, h0]
    · exact ⟨str "Symbol ", str " missing from library", rfl⟩
    · intro hplain
      rw [strDebug_plain name.dropLast hplain]
      refine ⟨str "Symbol " ++ ['\"'],
        ['\"'] ++ str " missing from library", ?_⟩
      simp
  · intro a ha hlook
    simp [sym, sym_opt, he, hi, hlook, ha]

/-- Witness for the amended C3, at the name `"foo\0"` and an oracle with no
symbols. -/
theorem c3_sym_required_form_witness :
    sym 8 8 lookupNone ⟨1⟩ (str "foo\x00") = .ok (.error ⟨.invalidInput,
      str "Symbol " ++ strDebug (str "foo\x00").dropLast ++
        str " missing from library"⟩) ∧
    (str "foo\x00").dropLast <:+:
      (str "Symbol " ++ strDebug (str "foo\x00").dropLast ++
        str " missing from library") := by
  have h := c3_sym_required_form 8 8 lookupNone ⟨1⟩ (str "foo\x00")
    (by decide) (by decide) rfl
  exact ⟨(h.1 rfl).1, (h.1 rfl).2.2 (by decide)⟩

/-- **C4, counterexample.** The claim says every successfully returned
`Library` — from `load` or `from_handle` — wraps a non-null handle.  But
`from_handle` performs no check: `from_handle(null)` succeeds and the
resulting handle is null. -/
theorem c4_from_handle_null_counterexample :
    from_handle 0 = .ok ⟨0⟩ ∧ (Library.mk 0).handle = 0 :=
  ⟨rfl, rfl⟩

/-- **C4, amended.** `load` (which checks the OS handle for null on both
backends) establishes a non-null handle for every success; `from_handle`
never fails and wraps the caller's value unchecked, so the non-null invariant
holds for it only by trusting the caller — a null argument passes through. -/
theorem c4_load_nonnull_handle (pos : PosixOS) (wos : WinOS)
    (plat : Platform) (st : LoaderState) (p : RPath) (lib lib' : Library) :
    ((posix_load pos st p).1 = .ok lib → lib.handle ≠ 0) ∧
    ((windows_load wos plat p).1 = .ok lib' → lib'.handle ≠ 0) ∧
    (∀ h : Addr, from_handle h = .ok ⟨h⟩) := by
  refine ⟨?_, ?_, fun _ => rfl⟩
  · intro hok
    by_cases h0 : pos.dlopenRes (p.bytes ++ [0]) = 0
    · simp [posix_load, h0] at hok
    · simp [posix_load, h0] at hok
      subst hok
      simpa using h0
  · intro hok
    by_cases h0 : wos.loadLibraryWRes (p.wide ++ [0]) = 0
    · by_cases h2 : wos.lastError = (0xC1 : Int) <;>
        by_cases h3 : wos.lastError = (0x7E : Int) <;>
        simp [windows_load, h0, h2, h3, ERROR_BAD_EXE_FORMAT,
          ERROR_MOD_NOT_FOUND] at hok
    · simp [windows_load, h0] at hok
      subst hok
      simpa using h0

/-- Witness for the amended C4: a loader returning handle 5 yields a library
whose handle is non-null, and `from_handle` wraps 3 unchanged. -/
theorem c4_load_nonnull_handle_witness :
    (Library.mk 5).handle ≠ 0 ∧ from_handle 3 = .ok ⟨3⟩ := by
  have h := c4_load_nonnull_handle posixOkOS winOkOS ⟨str "x86_64", 64⟩
    ⟨none⟩ pathFoo ⟨5⟩ ⟨5⟩
  exact ⟨h.1 (by decide), h.2.2 3⟩

/-- **C5, counterexample.** The claim says the architecture-mismatch message
states the running process's bit-width correctly for the actual architecture.
The code derives the widths solely from `cfg!(target_arch = "x86_64")`: on a
64-bit non-x86_64 Windows target (`aarch64`, pointer width 64), the message
claims the process is 32-bit ("this 32-bit process") and never states the
correct "this 64-bit process". -/
theorem c5_bitness_counterexample :
    (windows_load winBadExeOS ⟨str "aarch64", 64⟩ pathFoo).1 =
      .error ⟨.other, badExeFormatMsg (str "aarch64") pathFoo⟩ ∧
    (str "this 32-bit process") <:+: badExeFormatMsg (str "aarch64") pathFoo ∧
    ¬ (str "this 64-bit process") <:+:
      badExeFormatMsg (str "aarch64") pathFoo := by
  refine ⟨by decide, by decide, by decide⟩

/-- **C5, amended.** When a Windows `load` fails with
`ERROR_BAD_EXE_FORMAT`, the error is the distinct bad-exe-format condition,
and its message states both the attempted library's and the process's
bit-width correctly *provided* the target is x86_64 exactly when its pointer
width is 64 (true of x86 and x86_64; on other 64-bit targets the two widths
are reported swapped). -/
theorem c5_bitness_message (wos : WinOS) (plat : Platform) (p : RPath)
    (harch : plat.arch = str "x86_64" ↔ plat.ptrBits = 64)
    (hbits : plat.ptrBits = 32 ∨ plat.ptrBits = 64)
    (hfail : wos.loadLibraryWRes (p.wide ++ [0]) = 0)
    (hcode : wos.lastError = ERROR_BAD_EXE_FORMAT) :
    (windows_load wos plat p).1 =
      .error ⟨.other, badExeFormatMsg plat.arch p⟩ ∧
    (str "this " ++ Nat.toDigits 10 plat.ptrBits ++ str "-bit process)")
      <:+: badExeFormatMsg plat.arch p ∧
    (str "a " ++ Nat.toDigits 10 (if plat.ptrBits = 64 then 32 else 64) ++
      str "-bit DLL") <:+: badExeFormatMsg plat.arch p := by
  refine ⟨by simp [windows_load, hfail, hcode], ?_, ?_⟩
  · rcases hbits with hb | hb
    · have ha : plat.arch ≠ str "x86_64" := fun e => by
        rw [harch.mp e] at hb
        exact absurd hb (by decide)
      rw [hb]
      have h1 : (str "this " ++ Nat.toDigits 10 32 ++ str "-bit process)")
          <:+: (str ": ERROR_BAD_EXE_FORMAT (likely tried to load a " ++
            (str "64" ++ (str "-bit DLL into this " ++
              (str "32" ++ str "-bit process)")))) := by decide
      have h3 := infixAppendLeft (str "Unable to load ")
        (infixAppendLeft p.display h1)
      simpa [badExeFormatMsg, thisBitsStr, thatBitsStr, ha,
        List.append_assoc] using h3
    · have ha : plat.arch = str "x86_64" := harch.mpr hb
      rw [hb, ha]
      have h1 : (str "this " ++ Nat.toDigits 10 64 ++ str "-bit process)")
          <:+: (str ": ERROR_BAD_EXE_FORMAT (likely tried to load a " ++
            (str "32" ++ (str "-bit DLL into this " ++
              (str "64" ++ str "-bit process)")))) := by decide
      have h3 := infixAppendLeft (str "Unable to load ")
        (infixAppendLeft p.display h1)
      simpa [badExeFormatMsg, thisBitsStr, thatBitsStr,
        List.append_assoc] using h3
  · rcases hbits with hb | hb
    · have ha : plat.arch ≠ str "x86_64" := fun e => by
        rw [harch.mp e] at hb
        exact absurd hb (by decide)
      rw [hb]
      have h1 : (str "a " ++ Nat.toDigits 10 64 ++ str "-bit DLL")
          <:+: (str ": ERROR_BAD_EXE_FORMAT (likely tried to load a " ++
            (str "64" ++ (str "-bit DLL into this " ++
              (str "32" ++ str "-bit process)")))) := by decide
      have h3 := infixAppendLeft (str "Unable to load ")
        (infixAppendLeft p.display h1)
      simpa [badExeFormatMsg, thisBitsStr, thatBitsStr, ha,
        List.append_assoc] using h3
    · have ha : plat.arch = str "x86_64" := harch.mpr hb
      rw [hb, ha]
      have h1 : (str "a " ++ Nat.toDigits 10 32 ++ str "-bit DLL")
          <:+: (str ": ERROR_BAD_EXE_FORMAT (likely tried to load a " ++
            (str "32" ++ (str "-bit DLL into this " ++
              (str "64" ++ str "-bit process)")))) := by decide
      have h3 := infixAppendLeft (str "Unable to load ")
        (infixAppendLeft p.display h1)
      simpa [badExeFormatMsg, thisBitsStr, thatBitsStr,
        List.append_assoc] using h3

/-- Witness for the amended C5, on x86_64 with 64-bit pointers. -/
theorem c5_bitness_message_witness :
    (windows_load winBadExeOS ⟨str "x86_64", 64⟩ pathFoo).1 =
      .error ⟨.other, badExeFormatMsg (str "x86_64") pathFoo⟩ ∧
    (str "this " ++ Nat.toDigits 10 64 ++ str "-bit process)")
      <:+: badExeFormatMsg (str "x86_64") pathFoo ∧
    (str "a " ++ Nat.toDigits 10 32 ++ str "-bit DLL")
      <:+: badExeFormatMsg (str "x86_64") pathFoo := by
  have h := c5_bitness_message winBadExeOS ⟨str "x86_64", 64⟩ pathFoo
    (by simp) (Or.inr rfl) rfl rfl
  exact ⟨h.1, by simpa using h.2.1, by simpa using h.2.2⟩

/-- **C6, counterexample.** The claim says both backends report a missing
library as a *distinct* not-found condition.  On the POSIX backend every
`load` failure — including a plain file-not-found, as modelled by the
oracle's typical `dlerror` text — is returned with the generic
`ErrorKind::Other`, not the distinct `NotFound` kind. -/
theorem c6_posix_not_distinct_counterexample :
    (posix_load posixFailOS ⟨none⟩ pathFoo).1 = .error ⟨.other, str
      "libfoo.so: cannot open shared object file: No such file or directory"⟩
    ∧ ErrorKind.other ≠ ErrorKind.notFound := by
  refine ⟨by decide, by decide⟩

/-- **C6, amended.** On the Windows backend, a load failing with
`ERROR_MOD_NOT_FOUND` yields the distinct `NotFound` condition whose message
contains the originally requested path.  On the POSIX backend a failing load
yields a generic (`Other`) error carrying the loader's own diagnostic text —
which per the OS names the path — but not the distinct not-found kind. -/
theorem c6_not_found_condition (wos : WinOS) (plat : Platform)
    (pos : PosixOS) (st : LoaderState) (p : RPath)
    (hwfail : wos.loadLibraryWRes (p.wide ++ [0]) = 0)
    (hwcode : wos.lastError = ERROR_MOD_NOT_FOUND)
    (hpfail : pos.dlopenRes (p.bytes ++ [0]) = 0) :
    (windows_load wos plat p).1 = .error ⟨.notFound, modNotFoundMsg p⟩ ∧
    p.display <:+: modNotFoundMsg p ∧
    (posix_load pos st p).1 =
      .error ⟨.other, pos.dlopenErr (p.bytes ++ [0])⟩ := by
  refine ⟨?_, ?_, by simp [posix_load, hpfail]⟩
  · simp [windows_load, hwfail, hwcode, ERROR_MOD_NOT_FOUND,
      ERROR_BAD_EXE_FORMAT]
  · exact ⟨str "Unable to load ", str ": NotFound", by
      simp [modNotFoundMsg]⟩

/-- Witness for the amended C6, at a concrete path and failing oracles. -/
theorem c6_not_found_condition_witness :
    (windows_load winNotFoundOS ⟨str "x86_64", 64⟩ pathFoo).1 =
      .error ⟨.notFound, modNotFoundMsg pathFoo⟩ ∧
    pathFoo.display <:+: modNotFoundMsg pathFoo ∧
    (posix_load posixFailOS ⟨none⟩ pathFoo).1 =
      .error ⟨.other, posixFailOS.dlopenErr (pathFoo.bytes ++ [0])⟩ := by
  exact c6_not_found_condition winNotFoundOS ⟨str "x86_64", 64⟩ posixFailOS
    ⟨none⟩ pathFoo rfl rfl rfl

/-- **C7.** Every POSIX `load` first reads (and thereby clears) the loader's
error slot and only then calls `dlopen`: the call trace always begins
`dlerror; dlopen(bytes ++ [0])`.  Consequently the result of `load` is
independent of whatever stale error the slot held before the call: a load
after an earlier failed load never reports the earlier call's leftover
error. -/
theorem c7_stale_error_cleared (os : PosixOS) (st st' : LoaderState)
    (p : RPath) :
    (∃ rest, (posix_load os st p).2.2 =
      OSCall.dlerrorCall :: OSCall.dlopenCall (p.bytes ++ [0]) :: rest) ∧
    (posix_load os st p).1 = (posix_load os st' p).1 := by
  constructor
  · by_cases h : os.dlopenRes (p.bytes ++ [0]) = 0
    · exact ⟨[OSCall.dlerrorCall], by simp [posix_load, h]⟩
    · exact ⟨[], by simp [posix_load, h]⟩
  · rfl

/-- **C8.** Under the name preconditions, `has_sym` cannot fail (it returns
a plain boolean, exposing no typed value), and it returns `true` exactly when
`sym_opt` instantiated at the plain pointer type returns a non-empty
result. -/
theorem c8_has_sym_is_presence (ptrSize : Nat)
    (oslookup : Addr → List Char → Addr) (self : Library) (name : List Char)
    (he : strEndsWithNul name = true) (hi : hasInteriorNul name = false) :
    (∃ b, has_sym ptrSize oslookup self name = .ok b) ∧
    (has_sym ptrSize oslookup self name = .ok true ↔
      ∃ a, sym_opt ptrSize ptrSize oslookup self name = .ok (some a)) := by
  by_cases h0 : oslookup self.handle (cstrView name) = 0
  · exact ⟨⟨false, by simp [has_sym, sym_opt, he, hi, h0]⟩, by
      simp [has_sym, sym_opt, he, hi, h0]⟩
  · exact ⟨⟨true, by simp [has_sym, sym_opt, he, hi, h0]⟩, by
      simp [has_sym, sym_opt, he, hi, h0]⟩

/-- Witness for C8 at the name `"foo\0"` and an oracle with no symbols. -/
theorem c8_has_sym_is_presence_witness :
    (∃ b, has_sym 8 lookupNone ⟨1⟩ (str "foo\x00") = .ok b) ∧
    (has_sym 8 lookupNone ⟨1⟩ (str "foo\x00") = .ok true ↔
      ∃ a, sym_opt 8 8 lookupNone ⟨1⟩ (str "foo\x00") = .ok (some a)) :=
  c8_has_sym_is_presence 8 lookupNone ⟨1⟩ (str "foo\x00")
    (by decide) (by decide)

/-- **C9.** Under the preconditions, the optional forms return the empty
result exactly when the OS lookup yields the null address, and otherwise
return precisely the non-null address (bit-reinterpreted as the caller's
pointer-sized type).  In particular a symbol genuinely resolved at address
zero is reported as absent: the interface cannot distinguish the two. -/
theorem c9_empty_iff_null (ptrSize sizeT : Nat)
    (oslookup : Addr → List Char → Addr) (lookupOrd : Addr → Nat → Addr)
    (self : Library) (name : List Char) (ordinal : Nat)
    (he : strEndsWithNul name = true) (hi : hasInteriorNul name = false)
    (hsize : sizeT = ptrSize) :
    (sym_opt ptrSize sizeT oslookup self name = .ok none ↔
      oslookup self.handle (cstrView name) = 0) ∧
    (∀ a, sym_opt ptrSize sizeT oslookup self name = .ok (some a) ↔
      (oslookup self.handle (cstrView name) = a ∧ a ≠ 0)) ∧
    (sym_opt_by_ordinal_windows ptrSize sizeT lookupOrd self ordinal =
      .ok none ↔ lookupOrd self.handle ordinal = 0) ∧
    (∀ a, sym_opt_by_ordinal_windows ptrSize sizeT lookupOrd self ordinal =
      .ok (some a) ↔ (lookupOrd self.handle ordinal = a ∧ a ≠ 0)) := by
  subst hsize
  refine ⟨?_, ?_, ?_, ?_⟩
  · constructor
    · intro hh
      by_cases h0 : oslookup self.handle (cstrView name) = 0
      · exact h0
      · simp [sym_opt, he, hi, h0] at hh
    · intro h0
      simp [sym_opt, he, hi, h0]
  · intro a
    constructor
    · intro hh
      by_cases h0 : oslookup self.handle (cstrView name) = 0
      · simp [sym_opt, he, hi, h0] at hh
      · have hs : sym_opt sizeT sizeT oslookup self name =
            .ok (some (oslookup self.handle (cstrView name))) := by
          simp [sym_opt, he, hi, h0]
        rw [hs] at hh
        injection hh with hh1
        injection hh1 with hh2
        exact ⟨hh2, fun e => h0 (hh2.trans e)⟩
    · rintro ⟨h1, h2⟩
      simp [sym_opt, he, hi, h1, h2]
  · constructor
    · intro hh
      by_cases h0 : lookupOrd self.handle ordinal = 0
      · exact h0
      · simp [sym_opt_by_ordinal_windows, h0] at hh
    · intro h0
      simp [sym_opt_by_ordinal_windows, h0]
  · intro a
    constructor
    · intro hh
      by_cases h0 : lookupOrd self.handle ordinal = 0
      · simp [sym_opt_by_ordinal_windows, h0] at hh
      · have hs : sym_opt_by_ordinal_windows sizeT sizeT lookupOrd self
            ordinal = .ok (some (lookupOrd self.handle ordinal)) := by
          simp [sym_opt_by_ordinal_windows, h0]
        rw [hs] at hh
        injection hh with hh1
        injection hh1 with hh2
        exact ⟨hh2, fun e => h0 (hh2.trans e)⟩
    · rintro ⟨h1, h2⟩
      simp [sym_opt_by_ordinal_windows, h1, h2]

/-- Witness for C9 at the name `"foo\0"`, ordinal 7, and oracles with no
symbols. -/
theorem c9_empty_iff_null_witness :
    (sym_opt 8 8 lookupNone ⟨1⟩ (str "foo\x00") = .ok none ↔
      lookupNone (Library.mk 1).handle (cstrView (str "foo\x00")) = 0) ∧
    (∀ a, sym_opt 8 8 lookupNone ⟨1⟩ (str "foo\x00") = .ok (some a) ↔
      (lookupNone (Library.mk 1).handle (cstrView (str "foo\x00")) = a ∧
        a ≠ 0)) ∧
    (sym_opt_by_ordinal_windows 8 8 lookupOrdNone ⟨1⟩ 7 = .ok none ↔
      lookupOrdNone (Library.mk 1).handle 7 = 0) ∧
    (∀ a, sym_opt_by_ordinal_windows 8 8 lookupOrdNone ⟨1⟩ 7 =
      .ok (some a) ↔ (lookupOrdNone (Library.mk 1).handle 7 = a ∧ a ≠ 0)) :=
  c9_empty_iff_null 8 8 lookupNone lookupOrdNone ⟨1⟩ (str "foo\x00") 7
    (by decide) (by decide) rfl

/-- **C10.** `load` hands the OS exactly the path's native encoding with one
NUL appended — the POSIX trace contains `dlopen(bytes ++ [0])` and the
Windows trace is exactly `LoadLibraryW(wide ++ [0])` — for *every* path, with
no embedded-NUL check; and the C string the NUL-terminated OS call actually
reads from that buffer is the path truncated at its first interior NUL
byte. -/
theorem c10_path_passed_with_single_nul (os : PosixOS) (wos : WinOS)
    (plat : Platform) (st : LoaderState) (p : RPath) :
    OSCall.dlopenCall (p.bytes ++ [0]) ∈ (posix_load os st p).2.2 ∧
    (windows_load wos plat p).2 =
      [WinCall.loadLibraryWCall (p.wide ++ [0])] ∧
    cstrBytes (p.bytes ++ [0]) = p.bytes.takeWhile (fun b => b != 0) := by
  refine ⟨?_, ?_, cstrBytes_append_nul p.bytes⟩
  · by_cases h : os.dlopenRes (p.bytes ++ [0]) = 0 <;>
      simp [posix_load, h]
  · by_cases h1 : wos.loadLibraryWRes (p.wide ++ [0]) = 0
    · by_cases h2 : wos.lastError = (0xC1 : Int) <;>
        by_cases h3 : wos.lastError = (0x7E : Int) <;>
        simp [windows_load, h1, h2, h3, ERROR_BAD_EXE_FORMAT,
          ERROR_MOD_NOT_FOUND]
    · simp [windows_load, h1]

end Minidl
